import Mathlib

/-!
Verification development for the BOL OCR extractor (`app.py`).

The field-extraction engine of the program is embedded shallowly:

* Python strings are modelled as `List Char` (wrapped into `String` at the
  API surface);
* the regular expressions of `FieldPatterns.__init__` are transliterated
  into a small regex AST (`RE`) together with a backtracking matcher
  (`mtch`/`searchFrom`) that mirrors the leftmost-match, left-biased
  alternation, greedy/lazy repetition semantics of Python's `re.search` /
  `re.findall` under the flag sets the program uses
  (IGNORECASE everywhere, plus MULTILINE and DOTALL in `extract_field` and
  the goods-description search).  Every quantifier occurring in the
  program's patterns ranges over a single-character class, so repetition is
  modelled exactly by trying all run lengths (longest first when greedy,
  shortest first when lazy);
* the extraction methods of `BOLDataExtractor`, the quality/selection logic
  of `PDFProcessor` and the cargo-table scan of `TableParser` are
  translated line by line; the PDF/OCR collaborators are modelled as
  `Option String` oracles (`none` = the collaborator raised, which the
  program downgrades to `("", False)`);
* the `try/except` of `extract_all_fields` is modelled by an optional
  injected fault `(step, message)` naming the extraction step that raises.
-/

/-! ## Character sets and elementary string operations -/

/-- Python whitespace (the set accepted by `str.isspace` / regex `\s` on
`str` patterns): ASCII whitespace, the C1 separators, and the Unicode
space separators. -/
def isPySpace (c : Char) : Bool :=
  c = ' ' || c = '\t' || c = '\n' || c = '\r' || c = '\x0b' || c = '\x0c' ||
  c = '\x1c' || c = '\x1d' || c = '\x1e' || c = '\x1f' || c = '\x85' || c = '\xa0' ||
  c = ' ' || (0x2000 ≤ c.val && c.val ≤ 0x200a) ||
  c = ' ' || c = ' ' || c = ' ' || c = ' ' || c = '　'

/-- The character class `[:\-\s]` of `clean_field_data`. -/
def isTrimChar (c : Char) : Bool :=
  c = ':' || c = '-' || isPySpace c

/-- Case-insensitive character comparison (ASCII, as used by
`re.IGNORECASE` on the program's ASCII patterns). -/
def charIEq (a b : Char) : Bool :=
  a.toLower = b.toLower

/-- `str.upper()` (ASCII). -/
def toUpperL (l : List Char) : List Char :=
  l.map Char.toUpper

/-- Does `p` occur as a prefix of `t`? -/
def startsWithL : List Char → List Char → Bool
  | [], _ => true
  | _ :: _, [] => false
  | p :: ps, c :: cs => p = c && startsWithL ps cs

/-- Python's substring containment `p in t`. -/
def containsSub (p : List Char) : List Char → Bool
  | [] => startsWithL p []
  | c :: cs => startsWithL p (c :: cs) || containsSub p cs

/-- `str.strip()`: drop leading and trailing Python whitespace. -/
def pyStripL (l : List Char) : List Char :=
  ((l.dropWhile isPySpace).reverse.dropWhile isPySpace).reverse

/-- Helper of `collapseWS`; the flag records whether the previous character
belonged to a whitespace run whose single replacement space was already
emitted. -/
def collapseAux : Bool → List Char → List Char
  | _, [] => []
  | inRun, c :: cs =>
    if isPySpace c then
      if inRun then collapseAux true cs else ' ' :: collapseAux true cs
    else c :: collapseAux false cs

/-- `re.sub(r"\s+", " ", ·)`: replace each maximal whitespace run by a
single space. -/
def collapseWS (l : List Char) : List Char :=
  collapseAux false l

/-- `re.sub(r"^[:\-\s]+", "", ·)`: remove the leading run of
colons/hyphens/whitespace. -/
def dropLeadTrim (l : List Char) : List Char :=
  l.dropWhile isTrimChar

/-- `re.sub(r"[:\-\s]+$", "", ·)`: remove the trailing run of
colons/hyphens/whitespace. -/
def dropTailTrim (l : List Char) : List Char :=
  (l.reverse.dropWhile isTrimChar).reverse

/-- `BOLDataExtractor.clean_field_data`, app.py lines 299-308. -/
def cleanL (l : List Char) : List Char :=
  dropTailTrim (dropLeadTrim (collapseWS (pyStripL l)))

/-- `BOLDataExtractor.clean_field_data` on `String`. -/
def clean_field_data (s : String) : String :=
  ⟨cleanL s.data⟩

/-- Python `str.split("\n")` (always returns at least one piece). -/
def splitNl : List Char → List (List Char)
  | [] => [[]]
  | c :: cs =>
    match splitNl cs with
    | [] => [[]]
    | l :: ls => if c = '\n' then [] :: l :: ls else (c :: l) :: ls

/-! ## The regex AST and its backtracking matcher -/

/-- Regex AST covering exactly the constructs used by the program's
patterns.  All quantifiers of those patterns range over single-character
classes, which `rep` models by a class, a minimum count, an optional
maximum count and a greediness flag (`\s*` is `rep isPySpace 0 none true`,
`.*?` under DOTALL is `rep (fun _ => true) 0 none false`, `\d{1,2}` is
`rep Char.isDigit 1 (some 2) true`, `\.?` is `rep (· = '.') 0 (some 1)
true`, and so on). -/
inductive RE where
  | eps : RE
  | lit : List Char → RE
  | cls : (Char → Bool) → RE
  | seq : RE → RE → RE
  | alt : RE → RE → RE
  | rep : (Char → Bool) → Nat → Option Nat → Bool → RE
  | grp : RE → RE
  | look : RE → RE
  | eol : RE

/-- Case-insensitive literal match; returns the rest of the input. -/
def litMatch : List Char → List Char → Option (List Char)
  | [], s => some s
  | _ :: _, [] => none
  | p :: ps, c :: cs => if charIEq p c then litMatch ps cs else none

/-- Length of the maximal leading run of characters satisfying `p`. -/
def leadRun (p : Char → Bool) : List Char → Nat
  | [] => 0
  | c :: cs => if p c then leadRun p cs + 1 else 0

/-- Candidate repetition counts between `lo` and `hi`, in the order a
backtracking engine tries them (descending when greedy, ascending when
lazy). -/
def countsList (lo hi : Nat) (greedy : Bool) : List Nat :=
  let asc := (List.range (hi + 1 - lo)).map (fun i => lo + i)
  if greedy then asc.reverse else asc

/-- Matcher result: `some cap` on success, where `cap` is the content of
capturing group 1 if it participated in the match. -/
abbrev MR := Option (Option (List Char))

/-- Try the candidate repetition counts in order, resuming the
continuation after dropping that many characters. -/
def tryCounts (cands : List Nat) (s : List Char) (cap : Option (List Char))
    (k : List Char → Option (List Char) → MR) : MR :=
  match cands with
  | [] => none
  | n :: ns =>
    match k (s.drop n) cap with
    | some r => some r
    | none => tryCounts ns s cap k

/-- Backtracking matcher in continuation-passing style.  `cap` threads the
pending group-1 capture; `k` receives the rest of the input and the
capture.  Alternation is left-biased and repetition backtracks through
`tryCounts`, reproducing Python's `re` behaviour on these patterns.
`eol` is `$` under MULTILINE (end of input or just before a newline). -/
def mtch : RE → List Char → Option (List Char) →
    (List Char → Option (List Char) → MR) → MR
  | .eps, s, cap, k => k s cap
  | .lit cs, s, cap, k =>
    match litMatch cs s with
    | some s2 => k s2 cap
    | none => none
  | .cls p, s, cap, k =>
    match s with
    | [] => none
    | c :: rest => if p c then k rest cap else none
  | .seq a b, s, cap, k => mtch a s cap (fun s2 cap2 => mtch b s2 cap2 k)
  | .alt a b, s, cap, k =>
    match mtch a s cap k with
    | some r => some r
    | none => mtch b s cap k
  | .rep p lo mx gr, s, cap, k =>
    let run := leadRun p s
    let hi := match mx with
      | none => run
      | some m => Nat.min m run
    if hi < lo then none else tryCounts (countsList lo hi gr) s cap k
  | .grp r, s, cap, k =>
    mtch r s cap (fun s2 _ => k s2 (some (s.take (s.length - s2.length))))
  | .look r, s, cap, k =>
    match mtch r s none (fun _ c2 => some c2) with
    | some _ => k s cap
    | none => none
  | .eol, s, cap, k =>
    match s with
    | [] => k s cap
    | c :: _ => if c = '\n' then k s cap else none

/-- `re.search`: try to match at position 0, 1, 2, ...; on the first
success return the group-1 capture. -/
def searchFrom (r : RE) : List Char → Option (Option (List Char))
  | [] => mtch r [] none (fun _ cap => some cap)
  | c :: cs =>
    match mtch r (c :: cs) none (fun _ cap => some cap) with
    | some cap => some cap
    | none => searchFrom r cs

/-- Group 1 of the leftmost match (`none` when the pattern does not match
anywhere; Python's `match.group(1)` of `re.search`, and also
`re.findall(...)[0]` for these single-group patterns). -/
def searchG1 (r : RE) (s : List Char) : Option (List Char) :=
  match searchFrom r s with
  | some cap => some (cap.getD [])
  | none => none

/-! ## The pattern catalog (`FieldPatterns.__init__`, app.py lines 79-142)

Each Lean term below transliterates one regex string of the catalog,
token by token.  `labelGap` is the recurring tail `\.?\s*:?\s*` of the
label patterns. -/

/-- Build an `RE` literal from a string (matched case-insensitively). -/
def relit (s : String) : RE :=
  .lit s.data

/-- Sequence a list of regexes. -/
def rseq (l : List RE) : RE :=
  l.foldr .seq .eps

/-- Left-biased alternation of a list of regexes (`(?:a|b|c)`). -/
def ralt : List RE → RE
  | [] => .cls (fun _ => false)
  | [r] => r
  | r :: rs => .alt r (ralt rs)

/-- `\s*`. -/
def wsStar : RE :=
  .rep isPySpace 0 none true

/-- `\s+`. -/
def wsPlus : RE :=
  .rep isPySpace 1 none true

/-- `\.?\s*:?\s*`, the optional punctuation after a field label. -/
def labelGap : RE :=
  rseq [.rep (fun c => c = '.') 0 (some 1) true, wsStar,
        .rep (fun c => c = ':') 0 (some 1) true, wsStar]

/-- `(.*?)` under DOTALL: lazily capture any characters, newlines
included. -/
def grpLazyAny : RE :=
  .grp (.rep (fun _ => true) 0 none false)

/-- A literal newline `\n` inside a pattern. -/
def nlChar : RE :=
  .cls (fun c => c = '\n')

/-- `([A-Z0-9\-]+)` under IGNORECASE. -/
def grpAlnumDash : RE :=
  .grp (.rep (fun c => c.isAlpha || c.isDigit || c = '-') 1 none true)

/-- `([^\n]+)`: capture to the end of the line. -/
def grpLine : RE :=
  .grp (.rep (fun c => !(c = '\n')) 1 none true)

/-- `(?:No|Number|#)`. -/
def noNumHash : RE :=
  ralt [relit "No", relit "Number", relit "#"]

/-- bol_number pattern 1: `(?:B/L\s*(?:No|Number|#)\.?\s*:?\s*)([A-Z0-9\-]+)`. -/
def bolP1 : RE :=
  rseq [relit "B/L", wsStar, noNumHash, labelGap, grpAlnumDash]

/-- bol_number pattern 2 (`BOL` label). -/
def bolP2 : RE :=
  rseq [relit "BOL", wsStar, noNumHash, labelGap, grpAlnumDash]

/-- bol_number pattern 3 (`Bill of Lading` label). -/
def bolP3 : RE :=
  rseq [relit "Bill", wsStar, relit "of", wsStar, relit "Lading", wsStar,
        noNumHash, labelGap, grpAlnumDash]

/-- bol_number pattern 4 (`Document No/Number` label). -/
def bolP4 : RE :=
  rseq [relit "Document", wsStar, ralt [relit "No", relit "Number"],
        labelGap, grpAlnumDash]

/-- Shipper/consignee lookahead `(?=\n\s*(?:CONSIGNEE|Consignee|\n\n))`. -/
def shipperLook : RE :=
  .look (rseq [nlChar, wsStar,
               ralt [relit "CONSIGNEE", relit "Consignee", rseq [nlChar, nlChar]]])

/-- shipper pattern 1: `(?:SHIPPER\.?\s*:?\s*)(.*?)(?=\n\s*(?:CONSIGNEE|Consignee|\n\n))`. -/
def shipperP1 : RE :=
  rseq [relit "SHIPPER", labelGap, grpLazyAny, shipperLook]

/-- shipper pattern 2 (title-case label, same body). -/
def shipperP2 : RE :=
  rseq [relit "Shipper", labelGap, grpLazyAny, shipperLook]

/-- shipper pattern 3: `(?:FROM\.?\s*:?\s*)(.*?)(?=\n\s*(?:TO|CONSIGNEE|\n\n))`. -/
def shipperP3 : RE :=
  rseq [relit "FROM", labelGap, grpLazyAny,
        .look (rseq [nlChar, wsStar,
                     ralt [relit "TO", relit "CONSIGNEE", rseq [nlChar, nlChar]]])]

/-- Consignee lookahead `(?=\n\s*(?:NOTIFY|Notify|VESSEL|\n\n))`. -/
def consigneeLook : RE :=
  .look (rseq [nlChar, wsStar,
               ralt [relit "NOTIFY", relit "Notify", relit "VESSEL",
                     rseq [nlChar, nlChar]]])

/-- consignee pattern 1: `(?:CONSIGNEE\.?\s*:?\s*)(.*?)(?=...)`. -/
def consigneeP1 : RE :=
  rseq [relit "CONSIGNEE", labelGap, grpLazyAny, consigneeLook]

/-- consignee pattern 2 (title-case label). -/
def consigneeP2 : RE :=
  rseq [relit "Consignee", labelGap, grpLazyAny, consigneeLook]

/-- consignee pattern 3 (`TO` label). -/
def consigneeP3 : RE :=
  rseq [relit "TO", labelGap, grpLazyAny, consigneeLook]

/-- Notify-party lookahead `(?=\n\s*(?:VESSEL|PORT|GOODS|\n\n))`. -/
def notifyLook : RE :=
  .look (rseq [nlChar, wsStar,
               ralt [relit "VESSEL", relit "PORT", relit "GOODS",
                     rseq [nlChar, nlChar]]])

/-- notify_party pattern 1: `(?:NOTIFY\s*PARTY\.?\s*:?\s*)(.*?)(?=...)`. -/
def notifyP1 : RE :=
  rseq [relit "NOTIFY", wsStar, relit "PARTY", labelGap, grpLazyAny, notifyLook]

/-- notify_party pattern 2 (title-case label). -/
def notifyP2 : RE :=
  rseq [relit "Notify", wsStar, relit "Party", labelGap, grpLazyAny, notifyLook]

/-- notify_party pattern 3 (`ALSO NOTIFY` label). -/
def notifyP3 : RE :=
  rseq [relit "ALSO", wsStar, relit "NOTIFY", labelGap, grpLazyAny, notifyLook]

/-- vessel pattern 1: `(?:VESSEL\.?\s*:?\s*)([^\n]+)`. -/
def vesselP1 : RE :=
  rseq [relit "VESSEL", labelGap, grpLine]

/-- vessel pattern 2 (title-case label). -/
def vesselP2 : RE :=
  rseq [relit "Vessel", labelGap, grpLine]

/-- vessel pattern 3 (`SHIP NAME` label). -/
def vesselP3 : RE :=
  rseq [relit "SHIP", wsStar, relit "NAME", labelGap, grpLine]

/-- voyage pattern 1: `(?:VOYAGE\.?\s*:?\s*)([A-Z0-9\-]+)`. -/
def voyageP1 : RE :=
  rseq [relit "VOYAGE", labelGap, grpAlnumDash]

/-- voyage pattern 2 (title-case label). -/
def voyageP2 : RE :=
  rseq [relit "Voyage", labelGap, grpAlnumDash]

/-- voyage pattern 3 (`VOY` label). -/
def voyageP3 : RE :=
  rseq [relit "VOY", labelGap, grpAlnumDash]

/-- port_of_load pattern 1: `(?:PORT\s*OF\s*(?:LOADING|LOAD)\.?\s*:?\s*)([^\n]+)`. -/
def portLoadP1 : RE :=
  rseq [relit "PORT", wsStar, relit "OF", wsStar,
        ralt [relit "LOADING", relit "LOAD"], labelGap, grpLine]

/-- port_of_load pattern 2 (title-case labels). -/
def portLoadP2 : RE :=
  rseq [relit "Port", wsStar, relit "of", wsStar,
        ralt [relit "Loading", relit "Load"], labelGap, grpLine]

/-- port_of_load pattern 3 (`LOAD PORT` label). -/
def portLoadP3 : RE :=
  rseq [relit "LOAD", wsStar, relit "PORT", labelGap, grpLine]

/-- port_of_discharge pattern 1: `(?:PORT\s*OF\s*(?:DISCHARGE|DEST)\.?\s*:?\s*)([^\n]+)`. -/
def portDischargeP1 : RE :=
  rseq [relit "PORT", wsStar, relit "OF", wsStar,
        ralt [relit "DISCHARGE", relit "DEST"], labelGap, grpLine]

/-- port_of_discharge pattern 2 (title-case labels). -/
def portDischargeP2 : RE :=
  rseq [relit "Port", wsStar, relit "of", wsStar,
        ralt [relit "Discharge", relit "Dest"], labelGap, grpLine]

/-- port_of_discharge pattern 3 (`DISCHARGE PORT` label). -/
def portDischargeP3 : RE :=
  rseq [relit "DISCHARGE", wsStar, relit "PORT", labelGap, grpLine]

/-- `(PREPAID|COLLECT|PAYABLE)`. -/
def freightGroup : RE :=
  .grp (ralt [relit "PREPAID", relit "COLLECT", relit "PAYABLE"])

/-- freight_terms pattern 1: `(?:FREIGHT\.?\s*:?\s*)(PREPAID|COLLECT|PAYABLE)`. -/
def freightP1 : RE :=
  rseq [relit "FREIGHT", labelGap, freightGroup]

/-- freight_terms pattern 2 (title-case label). -/
def freightP2 : RE :=
  rseq [relit "Freight", labelGap, freightGroup]

/-- freight_terms pattern 3 (`TERMS` label). -/
def freightP3 : RE :=
  rseq [relit "TERMS", labelGap, freightGroup]

/-- `(?:Jan|Feb|Mar|Apr|May|Jun|Jul|Aug|Sep|Oct|Nov|Dec)`. -/
def monthsAlt : RE :=
  ralt [relit "Jan", relit "Feb", relit "Mar", relit "Apr", relit "May",
        relit "Jun", relit "Jul", relit "Aug", relit "Sep", relit "Oct",
        relit "Nov", relit "Dec"]

/-- date pattern 1: numeric day/month/year with slash or hyphen
separators, one group around the whole date. -/
def dateP1 : RE :=
  .grp (rseq [.rep Char.isDigit 1 (some 2) true,
              .cls (fun c => c = '/' || c = '-'),
              .rep Char.isDigit 1 (some 2) true,
              .cls (fun c => c = '/' || c = '-'),
              .rep Char.isDigit 2 (some 4) true])

/-- date pattern 2: `(\d{1,2}\s+(?:Jan|...|Dec)[a-z]*\s+\d{2,4})`. -/
def dateP2 : RE :=
  .grp (rseq [.rep Char.isDigit 1 (some 2) true, wsPlus, monthsAlt,
              .rep Char.isAlpha 0 none true, wsPlus,
              .rep Char.isDigit 2 (some 4) true])

/-- date pattern 3: `((?:Jan|...|Dec)[a-z]*\s+\d{1,2},?\s+\d{2,4})`. -/
def dateP3 : RE :=
  .grp (rseq [monthsAlt, .rep Char.isAlpha 0 none true, wsPlus,
              .rep Char.isDigit 1 (some 2) true,
              .rep (fun c => c = ',') 0 (some 1) true, wsPlus,
              .rep Char.isDigit 2 (some 4) true])

/-- `([0-9,.\s]+(?:KG|LBS|MT|TON))`: a number with separators followed by a
unit. -/
def weightGroup : RE :=
  .grp (rseq [.rep (fun c => c.isDigit || c = ',' || c = '.' || isPySpace c) 1 none true,
              ralt [relit "KG", relit "LBS", relit "MT", relit "TON"]])

/-- weight pattern 1: `(?:GROSS\s*WEIGHT\.?\s*:?\s*)([0-9,.\s]+(?:KG|LBS|MT|TON))`. -/
def weightGrossP : RE :=
  rseq [relit "GROSS", wsStar, relit "WEIGHT", labelGap, weightGroup]

/-- weight pattern 2 (`NET WEIGHT` label). -/
def weightNetP : RE :=
  rseq [relit "NET", wsStar, relit "WEIGHT", labelGap, weightGroup]

/-- weight pattern 3 (bare `WEIGHT` label). -/
def weightGenericP : RE :=
  rseq [relit "WEIGHT", labelGap, weightGroup]

/-- `([0-9,.\s]+)`. -/
def quantityGroup : RE :=
  .grp (.rep (fun c => c.isDigit || c = ',' || c = '.' || isPySpace c) 1 none true)

/-- quantity pattern 1: `(?:PACKAGES\.?\s*:?\s*)([0-9,.\s]+)`. -/
def quantityP1 : RE :=
  rseq [relit "PACKAGES", labelGap, quantityGroup]

/-- quantity pattern 2 (`QUANTITY` label). -/
def quantityP2 : RE :=
  rseq [relit "QUANTITY", labelGap, quantityGroup]

/-- quantity pattern 3 (`QTY` label). -/
def quantityP3 : RE :=
  rseq [relit "QTY", labelGap, quantityGroup]

/-- The source text of the three weight patterns, kept because
`extract_weights_quantities` classifies a pattern by searching `"GROSS"` /
`"NET"` in `pattern.upper()`. -/
def weightGrossSrc : String :=
  "(?:GROSS\\s*WEIGHT\\.?\\s*:?\\s*)([0-9,.\\s]+(?:KG|LBS|MT|TON))"

/-- Source text of the NET weight pattern. -/
def weightNetSrc : String :=
  "(?:NET\\s*WEIGHT\\.?\\s*:?\\s*)([0-9,.\\s]+(?:KG|LBS|MT|TON))"

/-- Source text of the generic weight pattern. -/
def weightGenericSrc : String :=
  "(?:WEIGHT\\.?\\s*:?\\s*)([0-9,.\\s]+(?:KG|LBS|MT|TON))"

/-- The `weight_patterns` list, each entry paired with its source text. -/
def weight_patterns : List (String × RE) :=
  [(weightGrossSrc, weightGrossP), (weightNetSrc, weightNetP),
   (weightGenericSrc, weightGenericP)]

/-- `FieldPatterns.get_patterns`: the ordered pattern list of a field type;
an unknown field type yields the empty list (app.py lines 144-146). -/
def get_patterns : String → List RE
  | "bol_number" => [bolP1, bolP2, bolP3, bolP4]
  | "shipper" => [shipperP1, shipperP2, shipperP3]
  | "consignee" => [consigneeP1, consigneeP2, consigneeP3]
  | "notify_party" => [notifyP1, notifyP2, notifyP3]
  | "vessel" => [vesselP1, vesselP2, vesselP3]
  | "voyage" => [voyageP1, voyageP2, voyageP3]
  | "port_of_load" => [portLoadP1, portLoadP2, portLoadP3]
  | "port_of_discharge" => [portDischargeP1, portDischargeP2, portDischargeP3]
  | "freight_terms" => [freightP1, freightP2, freightP3]
  | "date_patterns" => [dateP1, dateP2, dateP3]
  | "weight_patterns" => [weightGrossP, weightNetP, weightGenericP]
  | "quantity_patterns" => [quantityP1, quantityP2, quantityP3]
  | _ => []

/-! ## `BOLDataExtractor` (app.py lines 280-450) -/

/-- Loop body of `BOLDataExtractor.extract_field` (app.py lines 286-297):
try the patterns in order; on the first match whose stripped group 1 is
non-empty, return it cleaned; otherwise the empty string. -/
def extract_field_go : List RE → List Char → List Char
  | [], _ => []
  | p :: ps, text =>
    match searchG1 p text with
    | some g =>
      let result := pyStripL g
      if result ≠ [] then cleanL result else extract_field_go ps text
    | none => extract_field_go ps text

/-- `BOLDataExtractor.extract_field`. -/
def extract_field (text : String) (field_type : String) : String :=
  ⟨extract_field_go (get_patterns field_type) text.data⟩

/-- `BOLDataExtractor.extract_bol_number` (app.py lines 310-312). -/
def extract_bol_number (text : String) : String :=
  extract_field text "bol_number"

/-- The inner `split_name_address` of `extract_parties` (app.py lines
321-327): first line versus the rest. -/
def split_name_address (t : List Char) : List Char × List Char :=
  if t = [] then ([], [])
  else
    match splitNl t with
    | [] => ([], [])
    | l :: ls =>
      (pyStripL l, if ls ≠ [] then pyStripL (List.intercalate ['\n'] ls) else [])

/-- `BOLDataExtractor.extract_parties` (app.py lines 314-334): extract the
shipper/consignee/notify blocks and split each into name and address.
Result order: shipper name, shipper address, consignee name, consignee
address, notify name, notify address. -/
def extract_parties (text : String) :
    String × String × String × String × String × String :=
  let sh := split_name_address (extract_field text "shipper").data
  let co := split_name_address (extract_field text "consignee").data
  let no := split_name_address (extract_field text "notify_party").data
  (⟨sh.1⟩, ⟨sh.2⟩, ⟨co.1⟩, ⟨co.2⟩, ⟨no.1⟩, ⟨no.2⟩)

/-- `BOLDataExtractor.extract_vessel_info` (app.py lines 336-340). -/
def extract_vessel_info (text : String) : String × String :=
  (extract_field text "vessel", extract_field text "voyage")

/-- `BOLDataExtractor.extract_ports` (app.py lines 342-346). -/
def extract_ports (text : String) : String × String :=
  (extract_field text "port_of_load", extract_field text "port_of_discharge")

/-- Loop of `BOLDataExtractor.extract_dates` (app.py lines 348-358):
first date pattern with any match wins; the raw first match is returned
(no cleaning). -/
def extract_dates_go : List RE → List Char → List Char
  | [], _ => []
  | p :: ps, text =>
    match searchG1 p text with
    | some g => g
    | none => extract_dates_go ps text

/-- `BOLDataExtractor.extract_dates`. -/
def extract_dates (text : String) : String :=
  ⟨extract_dates_go (get_patterns "date_patterns") text.data⟩

/-- One iteration of the weight loop in `extract_weights_quantities`
(app.py lines 370-378): route the first match of the pattern into
gross/net according to whether the pattern's text contains "GROSS" or
"NET"; a pattern with neither label only fills gross when gross is still
empty. -/
def weightStep (text : List Char) (gn : List Char × List Char)
    (p : String × RE) : List Char × List Char :=
  match searchG1 p.2 text with
  | some m =>
    if containsSub "GROSS".data (toUpperL p.1.data) then (m, gn.2)
    else if containsSub "NET".data (toUpperL p.1.data) then (gn.1, m)
    else if gn.1 = [] then (m, gn.2)
    else gn
  | none => gn

/-- Quantity loop of `extract_weights_quantities` (app.py lines 381-385):
the first matching quantity pattern wins; its stripped group is taken and
the loop breaks. -/
def quantity_go : List RE → List Char → List Char
  | [], _ => []
  | p :: ps, text =>
    match searchG1 p text with
    | some m => pyStripL m
    | none => quantity_go ps text

/-- `BOLDataExtractor.extract_weights_quantities` (app.py lines 360-387):
returns (gross weight, net weight, quantity). -/
def extract_weights_quantities (text : String) : String × String × String :=
  let gn := weight_patterns.foldl (weightStep text.data) ([], [])
  let q := quantity_go (get_patterns "quantity_patterns") text.data
  (⟨gn.1⟩, ⟨gn.2⟩, ⟨q⟩)

/-- `BOLDataExtractor.extract_freight_terms` (app.py lines 389-391). -/
def extract_freight_terms (text : String) : String :=
  extract_field text "freight_terms"

/-! ## `TableParser.parse_cargo_description_table` (app.py lines 261-278) -/

/-- A table grid as delivered by the table-extraction collaborator: named
columns of optional cells (`none` models a missing/NaN cell removed by
`dropna`). -/
structure DFTable where
  cols : List (String × List (Option String))

/-- Keywords that mark a cargo-description column. -/
def cargoKeywords : List String :=
  ["DESCRIPTION", "GOODS", "CARGO", "COMMODITY"]

/-- Python `"; ".join`. -/
def joinSemi : List String → String
  | [] => ""
  | [s] => s
  | s :: rest => s ++ "; " ++ joinSemi rest

/-- `TableParser.parse_cargo_description_table`: collect the non-missing
cells of every column whose name contains a cargo keyword
(case-insensitively), in encounter order, joined with "; "; empty string
when nothing was collected. -/
def parse_cargo_description_table (tables : List DFTable) : String :=
  let descs := tables.foldl
    (fun acc t =>
      acc ++ (t.cols.filter
        (fun c => cargoKeywords.any
          (fun kw => containsSub kw.data (toUpperL c.1.data)))).foldl
        (fun a c => a ++ c.2.filterMap id) [])
    []
  if descs ≠ [] then joinSemi descs else ""

/-- The three goods text patterns of `extract_all_fields` (app.py lines
431-435); `(?:DESCRIPTION\s*OF\s*GOODS\.?\s*:?\s*)(.*?)` followed by a
lookahead for the next all-caps label line or end of text, where `$` is
MULTILINE. -/
def goodsLook : RE :=
  .look (rseq [nlChar, wsStar,
               ralt [rseq [.rep Char.isAlpha 1 none true, .cls (fun c => c = ':')],
                     .eol]])

/-- goods pattern 1 (`DESCRIPTION OF GOODS` label). -/
def goodsP1 : RE :=
  rseq [relit "DESCRIPTION", wsStar, relit "OF", wsStar, relit "GOODS",
        labelGap, grpLazyAny, goodsLook]

/-- goods pattern 2 (`GOODS` label). -/
def goodsP2 : RE :=
  rseq [relit "GOODS", labelGap, grpLazyAny, goodsLook]

/-- goods pattern 3 (`CARGO` label). -/
def goodsP3 : RE :=
  rseq [relit "CARGO", labelGap, grpLazyAny, goodsLook]

/-- Goods-from-text loop of `extract_all_fields` (app.py lines 437-441):
first matching pattern wins and its group is cleaned (even when empty). -/
def goods_from_text_go : List RE → List Char → List Char
  | [], _ => []
  | p :: ps, text =>
    match searchG1 p text with
    | some g => cleanL g
    | none => goods_from_text_go ps text

/-- Goods description extracted from text. -/
def goods_from_text (text : String) : String :=
  ⟨goods_from_text_go [goodsP1, goodsP2, goodsP3] text.data⟩

/-! ## `BOLData` and `extract_all_fields` -/

/-- The `BOLData` dataclass (app.py lines 50-74). -/
structure BOLData where
  filename : String
  bol_number : String
  shipper_name : String
  shipper_address : String
  consignee_name : String
  consignee_address : String
  notify_party_name : String
  notify_party_address : String
  vessel_name : String
  voyage_number : String
  port_of_load : String
  port_of_discharge : String
  description_of_goods : String
  quantity_packages : String
  gross_weight : String
  net_weight : String
  freight_terms : String
  date_of_issue : String
  extraction_method : String
  extraction_confidence : String
  processing_notes : String
  extraction_failed : Bool

/-- A fresh `BOLData` with the dataclass defaults (every string empty,
confidence "medium", failure flag false). -/
def BOLData.init : BOLData :=
  { filename := "", bol_number := "", shipper_name := "", shipper_address := "",
    consignee_name := "", consignee_address := "", notify_party_name := "",
    notify_party_address := "", vessel_name := "", voyage_number := "",
    port_of_load := "", port_of_discharge := "", description_of_goods := "",
    quantity_packages := "", gross_weight := "", net_weight := "",
    freight_terms := "", date_of_issue := "", extraction_method := "",
    extraction_confidence := "medium", processing_notes := "",
    extraction_failed := false }

/-- A fault injected into `extract_all_fields`: `some (j, msg)` makes the
`j`-th extraction step (0 = bol number, 1 = parties, 2 = vessel/voyage,
3 = ports, 4 = dates, 5 = weights/quantities, 6 = freight terms,
7 = goods description) raise an exception whose description is `msg`;
`none` is the normal run.  This models the `try`/`except` of app.py
lines 398-448. -/
def stepFault (inj : Option (Nat × String)) (j : Nat) : Option String :=
  match inj with
  | some (i, m) => if i = j then some m else none
  | none => none

/-- Run one extraction step: either the injected exception fires, handing
the partial record to the handler, or the step's assignment is applied. -/
def tryStep (inj : Option (Nat × String)) (j : Nat) (b : BOLData)
    (f : BOLData → BOLData) : Except (BOLData × String) BOLData :=
  match stepFault inj j with
  | some m => .error (b, m)
  | none => .ok (f b)

/-- The `try` body of `extract_all_fields` (app.py lines 398-443): the
eight field-extraction steps in source order, threading the partially
built record; an exception carries the record built so far. -/
def extract_body (inj : Option (Nat × String)) (text : String)
    (tables : List DFTable) (b0 : BOLData) :
    Except (BOLData × String) BOLData :=
  (tryStep inj 0 b0 (fun b => { b with bol_number := extract_bol_number text })).bind
  (fun b => (tryStep inj 1 b (fun b =>
    let pr := extract_parties text
    { b with shipper_name := pr.1, shipper_address := pr.2.1,
             consignee_name := pr.2.2.1, consignee_address := pr.2.2.2.1,
             notify_party_name := pr.2.2.2.2.1,
             notify_party_address := pr.2.2.2.2.2 })).bind
  (fun b => (tryStep inj 2 b (fun b =>
    let v := extract_vessel_info text
    { b with vessel_name := v.1, voyage_number := v.2 })).bind
  (fun b => (tryStep inj 3 b (fun b =>
    let p := extract_ports text
    { b with port_of_load := p.1, port_of_discharge := p.2 })).bind
  (fun b => (tryStep inj 4 b (fun b =>
    { b with date_of_issue := extract_dates text })).bind
  (fun b => (tryStep inj 5 b (fun b =>
    let w := extract_weights_quantities text
    { b with gross_weight := w.1, net_weight := w.2.1,
             quantity_packages := w.2.2 })).bind
  (fun b => (tryStep inj 6 b (fun b =>
    { b with freight_terms := extract_freight_terms text })).bind
  (fun b => tryStep inj 7 b (fun b =>
    let b1 := if tables.isEmpty then b
              else { b with description_of_goods :=
                             parse_cargo_description_table tables }
    if b1.description_of_goods = "" then
      { b1 with description_of_goods := goods_from_text text }
    else b1))))))))

/-- `BOLDataExtractor.extract_all_fields` (app.py lines 393-450): run the
extraction steps under the top-level `try`; on an exception, set the
failure flag and record `"Extraction error: " ++ msg` in the processing
notes, keeping every field assigned before the exception. -/
def extract_all_fields (inj : Option (Nat × String)) (text : String)
    (tables : List DFTable) (filename : String) : BOLData :=
  match extract_body inj text tables { BOLData.init with filename := filename } with
  | .ok b => b
  | .error (b, m) =>
    { b with extraction_failed := true,
             processing_notes := "Extraction error: " ++ m }

/-! ## `PDFProcessor` (app.py lines 148-239) -/

/-- `len(s.strip())`, the length measure used by the minimum-text
threshold. -/
def stripLen (s : String) : Nat :=
  (pyStripL s.data).length

/-- A text-producing collaborator call (`extract_text_pdfplumber` or
`extract_text_ocr`, app.py lines 154-199): `none` models the collaborator
raising, which the handler downgrades to `("", False)`; otherwise the text
is returned together with the success bit
`len(text.strip()) >= min_text_threshold`. -/
def extract_collab (raw : Option String) (thr : Nat) : String × Bool :=
  match raw with
  | none => ("", false)
  | some t => (t, decide (thr ≤ stripLen t))

/-- Keyword set of `assess_text_quality`. -/
def qualityKeywords : List String :=
  ["SHIPPER", "CONSIGNEE", "VESSEL", "B/L", "BOL"]

/-- `PDFProcessor.assess_text_quality` (app.py lines 201-216). -/
def assess_text_quality (text : String) : String :=
  if (pyStripL text.data).length < 50 then "low"
  else
    let hasKw := qualityKeywords.any
      (fun kw => containsSub kw.data (toUpperL text.data))
    let hasStruct := decide (5 < text.data.count '\n')
    if hasKw && hasStruct then "high"
    else if hasKw || hasStruct then "medium"
    else "low"

/-- Result of `process_pdf` instrumented with a flag recording whether the
OCR fallback branch was entered (i.e. whether `extract_text_ocr` was
invoked). -/
structure PdfResult where
  text : String
  method : String
  confidence : String
  ocrInvoked : Bool

/-- `PDFProcessor.process_pdf` (app.py lines 218-239): try native text,
assess it, and fall back to OCR when the text is short or low-confidence;
adopt OCR output only when it meets the threshold, else keep non-empty
native text as `text_fallback`; the initial method label `"text"` is kept
in every remaining case. -/
def process_pdf (nativeRaw ocrRaw : Option String) (thr : Nat) : PdfResult :=
  let tc := (extract_collab nativeRaw thr).1
  let ts := (extract_collab nativeRaw thr).2
  let confidence := assess_text_quality tc
  if ts = false ∨ confidence = "low" then
    let oc := (extract_collab ocrRaw thr).1
    let os := (extract_collab ocrRaw thr).2
    if os = true then
      { text := oc, method := "ocr", confidence := assess_text_quality oc,
        ocrInvoked := true }
    else if tc ≠ "" then
      { text := tc, method := "text_fallback", confidence := confidence,
        ocrInvoked := true }
    else
      { text := tc, method := "text", confidence := confidence,
        ocrInvoked := true }
  else
    { text := tc, method := "text", confidence := confidence,
      ocrInvoked := false }

/-! ## Auxiliary predicates used by the proofs -/

/-- Whitespace-normal form: every whitespace character is a plain space
and no two adjacent characters are both whitespace.  This is the shape
`collapseWS` produces and on which it acts as the identity. -/
def wsNormal : List Char → Bool
  | [] => true
  | [c] => !isPySpace c || c = ' '
  | c :: d :: rest =>
    (!isPySpace c || (c = ' ' && !isPySpace d)) && wsNormal (d :: rest)

/-- The end-to-end scenario text of the specification's test catalogue. -/
def scenarioC3 : String :=
  "B/L NUMBER: BOL123456789\nSHIPPER:\nABC Shipping Company\n123 Export Lane\nCONSIGNEE:\nXYZ Import Corp\n456 Harbor Blvd\nVESSEL: MV Ocean Carrier\nVOYAGE: VOY2024001\nPORT OF LOADING: Los Angeles, CA\nPORT OF DISCHARGE: New York, NY\nFREIGHT: PREPAID\nGROSS WEIGHT: 2,500 KG\nNET WEIGHT: 2,200 KG\nPACKAGES: 100 CTNS\nDATE: 15/03/2024"

/-! ## Theorems -/

theorem wsNormal_tail {c : Char} {l : List Char} (h : wsNormal (c :: l) = true) :
    wsNormal l = true := by
  cases l with
  | nil => rfl
  | cons d ds =>
    have := (Bool.and_eq_true _ _).mp h
    exact this.2

theorem wsNormal_cons_of_not_space {c : Char} {l : List Char}
    (hc : isPySpace c = false) (hl : wsNormal l = true) :
    wsNormal (c :: l) = true := by
  cases l with
  | nil => simp [wsNormal, hc]
  | cons d ds => simp [wsNormal, hc, hl]

theorem wsNormal_cons_space {l : List Char} (hl : wsNormal l = true)
    (hh : ∀ d, l.head? = some d → isPySpace d = false) :
    wsNormal (' ' :: l) = true := by
  cases l with
  | nil => simp [wsNormal]
  | cons d ds =>
    have hd : isPySpace d = false := hh d rfl
    simp [wsNormal, hd, hl]

theorem collapseAux_gap_head {l : List Char} {a : Char}
    (h : (collapseAux true l).head? = some a) : isPySpace a = false := by
  induction l with
  | nil => simp [collapseAux] at h
  | cons c cs ih =>
    by_cases hc : isPySpace c = true
    · rw [collapseAux, if_pos hc, if_pos rfl] at h
      exact ih h
    · rw [collapseAux, if_neg hc] at h
      simp at h
      rw [← h]
      simpa using hc

theorem collapseAux_wsNormal (l : List Char) :
    ∀ flag, wsNormal (collapseAux flag l) = true := by
  induction l with
  | nil => intro flag; rfl
  | cons c cs ih =>
    intro flag
    by_cases hc : isPySpace c = true
    · cases flag with
      | true =>
        rw [collapseAux, if_pos hc, if_pos rfl]
        exact ih true
      | false =>
        rw [collapseAux, if_pos hc, if_neg (by simp)]
        exact wsNormal_cons_space (ih true) (fun d hd => collapseAux_gap_head hd)
    · have hc' : isPySpace c = false := by simpa using hc
      rw [collapseAux, if_neg hc]
      exact wsNormal_cons_of_not_space hc' (ih false)

theorem collapseAux_true_of_head_not_space {d : Char} {ds : List Char}
    (hd : isPySpace d = false) :
    collapseAux true (d :: ds) = collapseAux false (d :: ds) := by
  rw [collapseAux, collapseAux, if_neg (by simp [hd]), if_neg (by simp [hd])]

theorem wsNormal_two {c d : Char} {rest : List Char}
    (h : wsNormal (c :: d :: rest) = true) :
    (!isPySpace c || (decide (c = ' ') && !isPySpace d)) = true :=
  ((Bool.and_eq_true _ _).mp h).1

theorem collapseAux_eq_self {l : List Char} (h : wsNormal l = true) :
    collapseAux false l = l := by
  induction l with
  | nil => rfl
  | cons c cs ih =>
    by_cases hc : isPySpace c = true
    · have hcl : (decide (c = ' ') && (match cs with
        | [] => true
        | d :: _ => !isPySpace d)) = true := by
        cases cs with
        | nil => simpa [wsNormal, hc] using h
        | cons d ds =>
          have h2 := wsNormal_two h
          rcases (Bool.or_eq_true _ _).mp h2 with h1 | h1
          · simp [hc] at h1
          · simpa using h1
      have hsp : c = ' ' := of_decide_eq_true ((Bool.and_eq_true _ _).mp hcl).1
      have hrest : collapseAux true cs = cs := by
        cases cs with
        | nil => rfl
        | cons d ds =>
          have hd : isPySpace d = false := by
            have := ((Bool.and_eq_true _ _).mp hcl).2
            simpa using this
          rw [collapseAux_true_of_head_not_space hd]
          exact ih (wsNormal_tail h)
      rw [collapseAux, if_pos hc, if_neg (by simp), hrest, hsp]
    · rw [collapseAux, if_neg hc, ih (wsNormal_tail h)]

theorem wsNormal_append_right {a b : List Char}
    (h : wsNormal (a ++ b) = true) : wsNormal b = true := by
  induction a with
  | nil => exact h
  | cons c cs ih => exact ih (wsNormal_tail h)

theorem wsNormal_one_of {c : Char} (h : isPySpace c = false ∨ c = ' ') :
    wsNormal [c] = true := by
  rcases h with h | h <;> simp [wsNormal, h]

theorem wsNormal_one_elim {c : Char} (h : wsNormal [c] = true) :
    isPySpace c = false ∨ c = ' ' := by
  simpa [wsNormal] using h

theorem wsNormal_two_elim {c d : Char} {rest : List Char}
    (h : wsNormal (c :: d :: rest) = true) :
    isPySpace c = false ∨ c = ' ' := by
  have h2 := wsNormal_two h
  rcases (Bool.or_eq_true _ _).mp h2 with h1 | h1
  · exact Or.inl (by simpa using h1)
  · exact Or.inr (of_decide_eq_true ((Bool.and_eq_true _ _).mp h1).1)

theorem wsNormal_append_left {a b : List Char}
    (h : wsNormal (a ++ b) = true) : wsNormal a = true := by
  induction a with
  | nil => rfl
  | cons c cs ih =>
    cases cs with
    | nil =>
      cases b with
      | nil => simpa using h
      | cons u us => exact wsNormal_one_of (wsNormal_two_elim (show wsNormal (c :: u :: us) = true by simpa using h))
    | cons d ds =>
      have h2 := wsNormal_two (show wsNormal (c :: d :: (ds ++ b)) = true by simpa using h)
      have h3 : wsNormal (d :: ds) = true := ih (wsNormal_tail h)
      cases ds with
      | nil =>
        have h4 := wsNormal_one_elim h3
        simp [wsNormal, h2]
        rcases h4 with h4 | h4
        · exact Or.inl h4
        · exact Or.inr h4
      | cons e es =>
        have h5 := wsNormal_two h3
        have h6 := wsNormal_tail h3
        simp [wsNormal, h2, h5, h6]

theorem head_dropWhile_not {p : Char → Bool} {l : List Char} {a : Char}
    (h : (l.dropWhile p).head? = some a) : p a = false := by
  induction l with
  | nil => simp [List.dropWhile] at h
  | cons c cs ih =>
    by_cases hc : p c = true
    · rw [List.dropWhile, hc] at h
      exact ih h
    · rw [List.dropWhile] at h
      simp [hc] at h
      rw [← h]
      simpa using hc

theorem dropWhile_eq_self_of_head {p : Char → Bool} {l : List Char}
    (h : ∀ a, l.head? = some a → p a = false) : l.dropWhile p = l := by
  cases l with
  | nil => rfl
  | cons c cs =>
    rw [List.dropWhile]
    simp [h c rfl]

theorem dropTail_eq_self_of_last {p : Char → Bool} {l : List Char}
    (h : ∀ a, l.getLast? = some a → p a = false) :
    (l.reverse.dropWhile p).reverse = l := by
  rw [dropWhile_eq_self_of_head, List.reverse_reverse]
  intro a ha
  exact h a (by rwa [List.head?_reverse] at ha)

theorem dropTailTrim_suffix_of_reverse (l : List Char) :
    ∃ u : List Char, dropTailTrim l ++ u = l := by
  obtain ⟨t, ht⟩ := List.dropWhile_suffix (l := l.reverse) isTrimChar
  refine ⟨t.reverse, ?_⟩
  have := congrArg List.reverse ht
  rwa [List.reverse_append, List.reverse_reverse] at this

theorem dropTailTrim_head {l : List Char} (h : dropTailTrim l ≠ []) :
    (dropTailTrim l).head? = l.head? := by
  obtain ⟨u, hu⟩ := dropTailTrim_suffix_of_reverse l
  cases hdt : dropTailTrim l with
  | nil => exact absurd hdt h
  | cons c cs =>
    rw [hdt] at hu
    rw [← hu]
    rfl

theorem dropTailTrim_last {l : List Char} {a : Char}
    (h : (dropTailTrim l).getLast? = some a) : isTrimChar a = false := by
  rw [dropTailTrim, List.getLast?_reverse] at h
  exact head_dropWhile_not h

theorem space_isTrimChar {c : Char} (h : isPySpace c = true) :
    isTrimChar c = true := by
  simp [isTrimChar, h]

theorem not_space_of_not_trim {c : Char} (h : isTrimChar c = false) :
    isPySpace c = false := by
  by_cases hs : isPySpace c = true
  · rw [space_isTrimChar hs] at h
    exact absurd h (by simp)
  · simpa using hs

theorem cleanL_wsNormal (l : List Char) : wsNormal (cleanL l) = true := by
  have h0 : wsNormal (collapseWS (pyStripL l)) = true :=
    collapseAux_wsNormal (pyStripL l) false
  have h1 : wsNormal (dropLeadTrim (collapseWS (pyStripL l))) = true := by
    obtain ⟨t, ht⟩ := List.dropWhile_suffix
      (l := collapseWS (pyStripL l)) isTrimChar
    rw [← ht] at h0
    exact wsNormal_append_right h0
  obtain ⟨u, hu⟩ := dropTailTrim_suffix_of_reverse
    (dropLeadTrim (collapseWS (pyStripL l)))
  rw [← hu] at h1
  exact wsNormal_append_left h1

theorem cleanL_head {l : List Char} {a : Char}
    (h : (cleanL l).head? = some a) : isTrimChar a = false := by
  have hne : cleanL l ≠ [] := by
    intro he
    rw [he] at h
    exact Option.noConfusion h
  rw [cleanL] at h hne
  rw [dropTailTrim_head hne] at h
  exact head_dropWhile_not h

theorem cleanL_last {l : List Char} {a : Char}
    (h : (cleanL l).getLast? = some a) : isTrimChar a = false :=
  dropTailTrim_last h

theorem cleanL_idem (l : List Char) : cleanL (cleanL l) = cleanL l := by
  have hws : wsNormal (cleanL l) = true := cleanL_wsNormal l
  have hstrip : pyStripL (cleanL l) = cleanL l := by
    rw [pyStripL, dropWhile_eq_self_of_head
      (fun a ha => not_space_of_not_trim (cleanL_head ha))]
    exact dropTail_eq_self_of_last
      (fun a ha => not_space_of_not_trim (cleanL_last ha))
  have hcol : collapseWS (cleanL l) = cleanL l := collapseAux_eq_self hws
  have hlead : dropLeadTrim (cleanL l) = cleanL l :=
    dropWhile_eq_self_of_head (fun a ha => cleanL_head ha)
  have htail : dropTailTrim (cleanL l) = cleanL l := by
    rw [dropTailTrim]
    exact dropTail_eq_self_of_last (fun a ha => cleanL_last ha)
  calc cleanL (cleanL l)
      = dropTailTrim (dropLeadTrim (collapseWS (pyStripL (cleanL l)))) := rfl
    _ = cleanL l := by rw [hstrip, hcol, hlead, htail]

theorem wsNormal_no_newline {l : List Char} (h : wsNormal l = true) :
    '\n' ∉ l := by
  induction l with
  | nil => simp
  | cons c cs ih =>
    intro hmem
    rcases List.mem_cons.mp hmem with hmem | hmem
    · have hc : isPySpace c = false ∨ c = ' ' := by
        cases cs with
        | nil => exact wsNormal_one_elim h
        | cons d ds => exact wsNormal_two_elim h
      rw [← hmem] at hc
      rcases hc with hc | hc
      · exact absurd hc (by simp [isPySpace])
      · exact absurd hc (by decide)
    · exact ih (wsNormal_tail h) hmem

theorem cleanL_no_newline (l : List Char) : '\n' ∉ cleanL l :=
  wsNormal_no_newline (cleanL_wsNormal l)

theorem extract_field_go_shape (ps : List RE) (t : List Char) :
    extract_field_go ps t = [] ∨ ∃ x, extract_field_go ps t = cleanL x := by
  induction ps with
  | nil => exact Or.inl rfl
  | cons p ps ih =>
    rw [extract_field_go]
    cases searchG1 p t with
    | none => exact ih
    | some g =>
      dsimp only
      by_cases hr : pyStripL g ≠ []
      · rw [if_pos hr]
        exact Or.inr ⟨pyStripL g, rfl⟩
      · rw [if_neg hr]
        exact ih

theorem extract_field_no_newline (text field_type : String) :
    '\n' ∉ (extract_field text field_type).data := by
  rw [extract_field]
  rcases extract_field_go_shape (get_patterns field_type) text.data with h | ⟨x, h⟩
  · rw [h]
    simp
  · rw [h]
    exact cleanL_no_newline x

theorem splitNl_no_newline {l : List Char} (h : '\n' ∉ l) : splitNl l = [l] := by
  induction l with
  | nil => rfl
  | cons c cs ih =>
    have hc : ¬(c = '\n') := fun he => h (he ▸ List.mem_cons_self c cs)
    have hcs : '\n' ∉ cs := fun hm => h (List.mem_cons_of_mem c hm)
    rw [splitNl, ih hcs]
    simp [hc]

theorem split_name_address_no_newline {l : List Char} (h : '\n' ∉ l) :
    (split_name_address l).2 = [] := by
  rw [split_name_address]
  by_cases he : l = []
  · simp [he]
  · rw [if_neg he, splitNl_no_newline h]
    simp

/-- Claim C8: `clean_field_data` is idempotent, maps the empty string to
the empty string, and (being a total function of the embedding) never
raises. -/
theorem clean_field_data_idempotent :
    (∀ s : String, clean_field_data (clean_field_data s) = clean_field_data s)
    ∧ clean_field_data "" = "" := by
  constructor
  · intro s
    show (⟨cleanL (cleanL s.data)⟩ : String) = ⟨cleanL s.data⟩
    exact congrArg String.mk (cleanL_idem s.data)
  · rfl

/-- Claim C1: the specification (and the repository's own unit tests) say
`extract_parties` splits a multi-line captured block at its first newline
into name and address.  In the code, `extract_field` runs the captured
block through `clean_field_data`, which collapses every whitespace run --
newlines included -- to a single space *before* `split_name_address`
runs, so the address components are empty for every input and the whole
block (newlines replaced by spaces) lands in the name.  The two-line
block "Acme Corp\n123 Main St" yields name "Acme Corp 123 Main St" and
address "", not name "Acme Corp" / address "123 Main St". -/
theorem extract_parties_newline_split_bug :
    (∀ text : String,
       (extract_parties text).2.1 = "" ∧
       (extract_parties text).2.2.2.1 = "" ∧
       (extract_parties text).2.2.2.2.2 = "")
    ∧ extract_parties "SHIPPER:\nAcme Corp\n123 Main St\nCONSIGNEE: X" =
        ("Acme Corp 123 Main St", "", "", "", "", "") := by
  constructor
  · intro text
    refine ⟨?_, ?_, ?_⟩
    · show (⟨(split_name_address (extract_field text "shipper").data).2⟩ : String) = ""
      rw [split_name_address_no_newline (extract_field_no_newline text "shipper")]
    · show (⟨(split_name_address (extract_field text "consignee").data).2⟩ : String) = ""
      rw [split_name_address_no_newline (extract_field_no_newline text "consignee")]
    · show (⟨(split_name_address (extract_field text "notify_party").data).2⟩ : String) = ""
      rw [split_name_address_no_newline (extract_field_no_newline text "notify_party")]
  · rfl

theorem extract_field_go_first (ps : List RE) (t : List Char) :
    (∀ i, ∀ hilen : i < ps.length,
       (∀ k, ∀ hklen : k < ps.length, k < i →
          pyStripL ((searchG1 (ps.get ⟨k, hklen⟩) t).getD []) = []) →
       pyStripL ((searchG1 (ps.get ⟨i, hilen⟩) t).getD []) ≠ [] →
       extract_field_go ps t =
         cleanL (pyStripL ((searchG1 (ps.get ⟨i, hilen⟩) t).getD [])))
    ∧ ((∀ i, ∀ hilen : i < ps.length,
          pyStripL ((searchG1 (ps.get ⟨i, hilen⟩) t).getD []) = []) →
       extract_field_go ps t = []) := by
  induction ps with
  | nil =>
    constructor
    · intro i hilen
      exact absurd hilen (by simp)
    · intro _
      rfl
  | cons p ps ih =>
    constructor
    · intro i hilen hk hi
      cases i with
      | zero =>
        simp only [List.get] at hi ⊢
        rw [extract_field_go]
        cases hs : searchG1 p t with
        | none =>
          rw [hs] at hi
          exact absurd rfl hi
        | some g =>
          rw [hs] at hi
          simp only [Option.getD] at hi
          show (if pyStripL g ≠ [] then cleanL (pyStripL g)
                else extract_field_go ps t) = cleanL (pyStripL ((some g).getD []))
          rw [if_pos hi]
          rfl
      | succ n =>
        have hskip : extract_field_go (p :: ps) t = extract_field_go ps t := by
          have h0 : pyStripL ((searchG1 p t).getD []) = [] :=
            hk 0 (by simp) (Nat.succ_pos n)
          rw [extract_field_go]
          cases hs : searchG1 p t with
          | none => rfl
          | some g =>
            rw [hs] at h0
            simp only [Option.getD] at h0
            dsimp only
            rw [if_neg (by simpa using h0)]
        rw [hskip]
        have hn : n < ps.length := Nat.lt_of_succ_lt_succ hilen
        have := (ih.1 n hn (fun k hklen hki =>
          hk (k + 1) (Nat.succ_lt_succ hklen) (Nat.succ_lt_succ hki)))
        simpa using this (by simpa using hi)
    · intro hall
      rw [extract_field_go]
      have h0 : pyStripL ((searchG1 p t).getD []) = [] := hall 0 (by simp)
      cases hs : searchG1 p t with
      | none =>
        exact ih.2 (fun i hilen => by
          simpa using hall (i + 1) (Nat.succ_lt_succ hilen))
      | some g =>
        rw [hs] at h0
        dsimp only
        rw [if_neg (by simpa using h0)]
        exact ih.2 (fun i hilen => by
          simpa using hall (i + 1) (Nat.succ_lt_succ hilen))

theorem ewq_weights_char (t : String) :
    (extract_weights_quantities t).1 =
      (⟨if (searchG1 weightGrossP t.data).getD [] = []
        then (searchG1 weightGenericP t.data).getD []
        else (searchG1 weightGrossP t.data).getD []⟩ : String)
    ∧ (extract_weights_quantities t).2.1 =
        (⟨(searchG1 weightNetP t.data).getD []⟩ : String) := by
  have hg : containsSub "GROSS".data (toUpperL weightGrossSrc.data) = true := by decide
  have hgn : containsSub "GROSS".data (toUpperL weightNetSrc.data) = false := by decide
  have hgw : containsSub "GROSS".data (toUpperL weightGenericSrc.data) = false := by decide
  have hn : containsSub "NET".data (toUpperL weightNetSrc.data) = true := by decide
  have hnw : containsSub "NET".data (toUpperL weightGenericSrc.data) = false := by decide
  rcases hsg : searchG1 weightGrossP t.data with _ | g <;>
    rcases hsn : searchG1 weightNetP t.data with _ | n <;>
      rcases hsw : searchG1 weightGenericP t.data with _ | w <;>
        simp [extract_weights_quantities, weight_patterns, weightStep,
              List.foldl, hsg, hsn, hsw, hg, hgn, hgw, hn, hnw] <;>
      by_cases hge : g = [] <;> simp [hge]

/-- Claim C6: weight routing in `extract_weights_quantities`.  Generally,
the net weight output is exactly the first capture of the NET pattern (so
a generic WEIGHT match never fills net), and the gross weight output is
the first capture of the GROSS pattern, falling back to the first capture
of the generic WEIGHT pattern only when the GROSS result is empty (so a
generic match never overwrites a found gross weight).  On the concrete
texts: both labels yield gross "100 KG" / net "90 KG", and a bare WEIGHT
label yields gross "50 KG" / net "". -/
theorem extract_weights_routing :
    (∀ t : String,
       (extract_weights_quantities t).1 =
         (⟨if (searchG1 weightGrossP t.data).getD [] = []
           then (searchG1 weightGenericP t.data).getD []
           else (searchG1 weightGrossP t.data).getD []⟩ : String)
       ∧ (extract_weights_quantities t).2.1 =
           (⟨(searchG1 weightNetP t.data).getD []⟩ : String))
    ∧ extract_weights_quantities "GROSS WEIGHT: 100 KG\nNET WEIGHT: 90 KG" =
        ("100 KG", "90 KG", "")
    ∧ extract_weights_quantities "WEIGHT: 50 KG" = ("50 KG", "", "") :=
  ⟨fun t => ewq_weights_char t, rfl, rfl⟩

/-- Claim C10: when the GROSS pattern finds nothing and the NET and
generic WEIGHT patterns both capture the same value `v` (as happens when
the only weight label in the text is a NET label, the generic pattern
matching inside the substring "NET WEIGHT"), the returned gross weight
equals the net weight `v` and is non-empty; e.g. "NET WEIGHT: 90 KG"
yields gross "90 KG" and net "90 KG". -/
theorem extract_weights_net_only_fills_gross (t : String) (v : List Char)
    (hg : searchG1 weightGrossP t.data = none)
    (hn : searchG1 weightNetP t.data = some v)
    (hw : searchG1 weightGenericP t.data = some v)
    (hv : v ≠ []) :
    (extract_weights_quantities t).1 = (⟨v⟩ : String) ∧
    (extract_weights_quantities t).2.1 = (⟨v⟩ : String) ∧
    (extract_weights_quantities t).1 ≠ "" := by
  have hc := ewq_weights_char t
  rw [hg, hn, hw] at hc
  simp only [Option.getD] at hc
  refine ⟨hc.1.trans (by simp), hc.2, ?_⟩
  rw [hc.1]
  intro he
  simp at he
  exact hv (by simpa using congrArg String.data he)

/-- Witness for C10 at the concrete text "NET WEIGHT: 90 KG". -/
theorem extract_weights_net_only_fills_gross_witness :
    (extract_weights_quantities "NET WEIGHT: 90 KG").1 = "90 KG" ∧
    (extract_weights_quantities "NET WEIGHT: 90 KG").2.1 = "90 KG" := by
  have h := extract_weights_net_only_fills_gross "NET WEIGHT: 90 KG"
    "90 KG".data (by decide) (by decide) (by decide) (by decide)
  exact ⟨h.1, h.2.1⟩

/-- Claim C9: `extract_field` tries each field type's patterns in list
order; the result is the cleaned stripped capture of the first pattern
whose stripped capture is non-empty (so a pattern earlier in the list
beats any later one, and patterns whose capture strips to empty are
skipped), and the empty string when no pattern produces a non-empty
capture. -/
theorem extract_field_pattern_precedence (text field_type : String) :
    (∀ i, ∀ hilen : i < (get_patterns field_type).length,
       (∀ k, ∀ hklen : k < (get_patterns field_type).length, k < i →
          pyStripL ((searchG1 ((get_patterns field_type).get ⟨k, hklen⟩)
            text.data).getD []) = []) →
       pyStripL ((searchG1 ((get_patterns field_type).get ⟨i, hilen⟩)
         text.data).getD []) ≠ [] →
       extract_field text field_type =
         ⟨cleanL (pyStripL ((searchG1 ((get_patterns field_type).get ⟨i, hilen⟩)
           text.data).getD []))⟩)
    ∧ ((∀ i, ∀ hilen : i < (get_patterns field_type).length,
          pyStripL ((searchG1 ((get_patterns field_type).get ⟨i, hilen⟩)
            text.data).getD []) = []) →
       extract_field text field_type = "") := by
  constructor
  · intro i hilen hk hi
    exact congrArg String.mk
      ((extract_field_go_first (get_patterns field_type) text.data).1 i hilen hk hi)
  · intro hall
    exact congrArg String.mk
      ((extract_field_go_first (get_patterns field_type) text.data).2 hall)

/-- Witness for C9: in "BOL NO: AAA-1 B/L NO: BBB-2" both the first
(B/L-labelled) and the second (BOL-labelled) bol_number patterns match,
and the extractor returns the match of the pattern earlier in the list
("BBB-2"), not the match occurring earlier in the text. -/
theorem extract_field_pattern_precedence_witness :
    extract_field "BOL NO: AAA-1 B/L NO: BBB-2" "bol_number" = "BBB-2" := by
  have h := (extract_field_pattern_precedence "BOL NO: AAA-1 B/L NO: BBB-2"
    "bol_number").1 0 (by decide)
    (fun k hklen hk0 => absurd hk0 (Nat.not_lt_zero k)) (by decide)
  exact h.trans (by decide)

/-- Claim C5: `assess_text_quality` returns "low" whenever the stripped
length is below 50; otherwise with `hasKw` = some quality keyword occurs
in the uppercased text and `hasStruct` = more than five newlines, it
returns "high" when both hold, "medium" when exactly one holds, and "low"
when neither holds. -/
theorem assess_text_quality_thresholds (t : String) :
    (assess_text_quality t = "low" ↔
       ((pyStripL t.data).length < 50 ∨
        (qualityKeywords.any (fun kw => containsSub kw.data (toUpperL t.data)) = false ∧
         decide (5 < t.data.count '\n') = false)))
    ∧ (assess_text_quality t = "high" ↔
       (¬ (pyStripL t.data).length < 50 ∧
        qualityKeywords.any (fun kw => containsSub kw.data (toUpperL t.data)) = true ∧
        decide (5 < t.data.count '\n') = true))
    ∧ (assess_text_quality t = "medium" ↔
       (¬ (pyStripL t.data).length < 50 ∧
        ((qualityKeywords.any (fun kw => containsSub kw.data (toUpperL t.data)) = true ∧
          decide (5 < t.data.count '\n') = false) ∨
         (qualityKeywords.any (fun kw => containsSub kw.data (toUpperL t.data)) = false ∧
          decide (5 < t.data.count '\n') = true)))) := by
  by_cases h1 : (pyStripL t.data).length < 50 <;>
    cases hK : qualityKeywords.any (fun kw => containsSub kw.data (toUpperL t.data)) <;>
      cases hS : decide (5 < t.data.count '\n') <;>
        simp [assess_text_quality, h1, hK, hS]

/-- Claim C4: the method-selection cascade of `process_pdf`.
(i) When the native text strips to at least the threshold and its assessed
confidence is not "low", OCR is never invoked and the native text is
returned with method "text".
(ii) When the native result fails the threshold or assesses "low", OCR is
invoked; if the OCR text strips to at least the threshold it is adopted
with method "ocr" and confidence recomputed on it.
(iii) If instead OCR falls short while the native text is non-empty, the
native text is kept with method "text_fallback" and the step-2 confidence
unchanged. -/
theorem process_pdf_cascade (thr : Nat) :
    (∀ (t : String) (ocrRaw : Option String),
       thr ≤ stripLen t → assess_text_quality t ≠ "low" →
       process_pdf (some t) ocrRaw thr =
         ⟨t, "text", assess_text_quality t, false⟩)
    ∧ (∀ nativeRaw ocrRaw : Option String,
       ((extract_collab nativeRaw thr).2 = false ∨
        assess_text_quality (extract_collab nativeRaw thr).1 = "low") →
       (process_pdf nativeRaw ocrRaw thr).ocrInvoked = true)
    ∧ (∀ (nativeRaw : Option String) (u : String),
       ((extract_collab nativeRaw thr).2 = false ∨
        assess_text_quality (extract_collab nativeRaw thr).1 = "low") →
       thr ≤ stripLen u →
       process_pdf nativeRaw (some u) thr =
         ⟨u, "ocr", assess_text_quality u, true⟩)
    ∧ (∀ nativeRaw ocrRaw : Option String,
       ((extract_collab nativeRaw thr).2 = false ∨
        assess_text_quality (extract_collab nativeRaw thr).1 = "low") →
       (extract_collab ocrRaw thr).2 = false →
       (extract_collab nativeRaw thr).1 ≠ "" →
       process_pdf nativeRaw ocrRaw thr =
         ⟨(extract_collab nativeRaw thr).1, "text_fallback",
          assess_text_quality (extract_collab nativeRaw thr).1, true⟩) := by
  refine ⟨?_, ?_, ?_, ?_⟩
  · intro t ocrRaw ht hc
    have hts : (extract_collab (some t) thr).2 = true := by
      simp [extract_collab, ht]
    rw [process_pdf, if_neg]
    · rfl
    · rintro (h | h)
      · rw [hts] at h
        exact Bool.noConfusion h
      · exact hc h
  · intro nativeRaw ocrRaw hlow
    rw [process_pdf, if_pos (by exact hlow.imp (fun h => by simp [h]) id)]
    by_cases hos : (extract_collab ocrRaw thr).2 = true
    · simp [hos]
    · by_cases htc : (extract_collab nativeRaw thr).1 ≠ "" <;> simp [hos, htc]
  · intro nativeRaw u hlow hu
    have hos : (extract_collab (some u) thr).2 = true := by
      simp [extract_collab, hu]
    rw [process_pdf, if_pos (by exact hlow.imp (fun h => by simp [h]) id)]
    rw [if_pos hos]
    rfl
  · intro nativeRaw ocrRaw hlow hocr htc
    rw [process_pdf, if_pos (by exact hlow.imp (fun h => by simp [h]) id)]
    rw [if_neg (by simp [hocr]), if_pos htc]

/-- Witness for C4 at concrete inputs: a long keyword-bearing native text
is kept without OCR; a short native text triggers OCR which is adopted
when long enough; a short native text with failing OCR is kept as
"text_fallback". -/
theorem process_pdf_cascade_witness :
    process_pdf
        (some "SHIPPER: Acme Corporation, 123 Example Road, Springfield. CONSIGNEE: Another Company, 456 Sample Street, Portland.")
        (some "ignored") 100 =
      ⟨"SHIPPER: Acme Corporation, 123 Example Road, Springfield. CONSIGNEE: Another Company, 456 Sample Street, Portland.",
       "text",
       assess_text_quality "SHIPPER: Acme Corporation, 123 Example Road, Springfield. CONSIGNEE: Another Company, 456 Sample Street, Portland.",
       false⟩
    ∧ (process_pdf (some "short") (some "") 100).ocrInvoked = true
    ∧ process_pdf (some "short")
        (some "SHIPPER: Acme Corporation, 123 Example Road, Springfield. CONSIGNEE: Another Company, 456 Sample Street, Portland.")
        100 =
      ⟨"SHIPPER: Acme Corporation, 123 Example Road, Springfield. CONSIGNEE: Another Company, 456 Sample Street, Portland.",
       "ocr",
       assess_text_quality "SHIPPER: Acme Corporation, 123 Example Road, Springfield. CONSIGNEE: Another Company, 456 Sample Street, Portland.",
       true⟩
    ∧ process_pdf (some "short") (some "") 100 =
      ⟨"short", "text_fallback", assess_text_quality "short", true⟩ := by
  refine ⟨?_, ?_, ?_, ?_⟩
  · exact (process_pdf_cascade 100).1
      "SHIPPER: Acme Corporation, 123 Example Road, Springfield. CONSIGNEE: Another Company, 456 Sample Street, Portland."
      (some "ignored") (by decide) (by decide)
  · exact (process_pdf_cascade 100).2.1 (some "short") (some "")
      (Or.inl (by decide))
  · exact (process_pdf_cascade 100).2.2.1 (some "short")
      "SHIPPER: Acme Corporation, 123 Example Road, Springfield. CONSIGNEE: Another Company, 456 Sample Street, Portland."
      (Or.inl (by decide)) (by decide)
  · exact (process_pdf_cascade 100).2.2.2 (some "short") (some "")
      (Or.inl (by decide)) (by decide) (by decide)

/-- Claim C2 concerns the branch of `process_pdf` where the native text is
empty (or the native extractor raised, downgraded to empty) and the OCR
attempt also falls below the threshold.  The specification and the
repository's own test (`test_process_pdf_both_fail`) say the method label
is "ocr"; in the code the initial label "text" is never reassigned on
this path, so `process_pdf` returns method "text" with confidence "low".
Evaluated here at the failing input: native raises (`none`), OCR returns
an empty string. -/
theorem process_pdf_both_fail_label :
    process_pdf none (some "") 100 = ⟨"", "text", "low", true⟩ ∧
    process_pdf (some "") none 100 = ⟨"", "text", "low", true⟩ :=
  ⟨rfl, rfl⟩

set_option maxRecDepth 40000 in
/-- Claim C3: the end-to-end scenario.  The code extracts the identifier,
vessel, voyage, ports, freight terms, weights and date exactly as the
specification says, and the failure flag is false; but because
`clean_field_data` collapses newlines before `split_name_address` runs,
the shipper name comes out as "ABC Shipping Company 123 Export Lane"
(address folded in, shipper address empty) instead of name
"ABC Shipping Company" / address containing "123 Export Lane", the
consignee name comes out as "XYZ Import Corp 456 Harbor Blvd", and the
quantity capture stops before "CTNS", giving "100" instead of
"100 CTNS". -/
theorem extract_all_fields_scenario :
    extract_all_fields none scenarioC3 [] "bol.pdf" =
      { filename := "bol.pdf", bol_number := "BOL123456789",
        shipper_name := "ABC Shipping Company 123 Export Lane",
        shipper_address := "",
        consignee_name := "XYZ Import Corp 456 Harbor Blvd",
        consignee_address := "",
        notify_party_name := "", notify_party_address := "",
        vessel_name := "MV Ocean Carrier", voyage_number := "VOY2024001",
        port_of_load := "Los Angeles, CA", port_of_discharge := "New York, NY",
        description_of_goods := "", quantity_packages := "100",
        gross_weight := "2,500 KG", net_weight := "2,200 KG",
        freight_terms := "PREPAID", date_of_issue := "15/03/2024",
        extraction_method := "", extraction_confidence := "medium",
        processing_notes := "", extraction_failed := false } := rfl

theorem startsWithL_refl (l : List Char) : startsWithL l l = true := by
  induction l with
  | nil => rfl
  | cons c cs ih => simp [startsWithL, ih]

theorem containsSub_append_self (pre p : List Char) :
    containsSub p (pre ++ p) = true := by
  induction pre with
  | nil =>
    cases p with
    | nil => rfl
    | cons c cs =>
      rw [List.nil_append, containsSub, startsWithL_refl]
      rfl
  | cons c cs ih =>
    rw [List.cons_append, containsSub, ih]
    simp

theorem extraction_note_ne_empty (msg : String) :
    "Extraction error: " ++ msg ≠ "" := by
  intro h
  have hd := congrArg String.data h
  rw [String.data_append] at hd
  have := (List.append_eq_nil.mp hd).1
  exact absurd this (by decide)

/-- Claim C7: any exception in one of the eight field-extraction steps of
`extract_all_fields` is contained: the returned record has the failure
flag set, its processing notes are the non-empty string
"Extraction error: " followed by the exception's description (so they
contain the description), every field assigned by a step before the
faulting one keeps its value, and every later field keeps its default. -/
theorem extract_all_fields_fault_contained (j : Nat) (msg text : String)
    (tables : List DFTable) (fn : String) (hj : j < 8) :
    extract_all_fields (some (j, msg)) text tables fn =
      { filename := fn,
        bol_number := if 0 < j then extract_bol_number text else "",
        shipper_name := if 1 < j then (extract_parties text).1 else "",
        shipper_address := if 1 < j then (extract_parties text).2.1 else "",
        consignee_name := if 1 < j then (extract_parties text).2.2.1 else "",
        consignee_address := if 1 < j then (extract_parties text).2.2.2.1 else "",
        notify_party_name := if 1 < j then (extract_parties text).2.2.2.2.1 else "",
        notify_party_address := if 1 < j then (extract_parties text).2.2.2.2.2 else "",
        vessel_name := if 2 < j then (extract_vessel_info text).1 else "",
        voyage_number := if 2 < j then (extract_vessel_info text).2 else "",
        port_of_load := if 3 < j then (extract_ports text).1 else "",
        port_of_discharge := if 3 < j then (extract_ports text).2 else "",
        description_of_goods := "",
        quantity_packages := if 5 < j then (extract_weights_quantities text).2.2 else "",
        gross_weight := if 5 < j then (extract_weights_quantities text).1 else "",
        net_weight := if 5 < j then (extract_weights_quantities text).2.1 else "",
        freight_terms := if 6 < j then extract_freight_terms text else "",
        date_of_issue := if 4 < j then extract_dates text else "",
        extraction_method := "", extraction_confidence := "medium",
        processing_notes := "Extraction error: " ++ msg,
        extraction_failed := true }
    ∧ ("Extraction error: " ++ msg) ≠ ""
    ∧ containsSub msg.data ("Extraction error: " ++ msg).data = true := by
  refine ⟨?_, extraction_note_ne_empty msg, ?_⟩
  · interval_cases j <;> rfl
  · rw [String.data_append]
    exact containsSub_append_self _ _

/-- Witness for C7: faulting the parties step (step 1) with message
"boom" yields a failed record whose notes carry the message while the
bol_number extracted by step 0 is preserved. -/
theorem extract_all_fields_fault_contained_witness :
    (extract_all_fields (some (1, "boom")) "T" [] "f.pdf").extraction_failed = true ∧
    (extract_all_fields (some (1, "boom")) "T" [] "f.pdf").processing_notes =
      "Extraction error: boom" ∧
    (extract_all_fields (some (1, "boom")) "T" [] "f.pdf").bol_number =
      extract_bol_number "T" := by
  have h := extract_all_fields_fault_contained 1 "boom" "T" [] "f.pdf" (by decide)
  rw [h.1]
  exact ⟨rfl, rfl, by simp⟩
